import Mathlib

/-!
Verification of the color-literal parsing core of `belly`
(`crates/belly_core/src/ess/property/colors.rs`).

Strings are modelled at the byte level (`List ℕ` of ASCII code points):
the Rust code hands `hex.as_bytes()` to cssparser, and every string this
module touches is ASCII.  Color channels are modelled as exact rationals;
the source stores `f32` values, but every channel produced by this module
is either a byte divided by 255 or a 4-decimal constant, and for those the
`f32` computations of the source and exact rational arithmetic agree on
every byte-level observation made here (the nearest float is within 2e-7
of the exact value while every floor/comparison threshold is at least
16e-4 away).
-/

namespace Belly

/-- Bytes of a Lean string literal; used to write ASCII byte lists readably. -/
def s2b (s : String) : List ℕ := s.toList.map Char.toNat

/-- ASCII whitespace recognised by Rust `str::trim` (space, tab, LF, VT, FF, CR). -/
def isWs (b : ℕ) : Bool := decide (b = 32 ∨ b = 9 ∨ b = 10 ∨ b = 11 ∨ b = 12 ∨ b = 13)

/-- Drop leading whitespace, as in `str::trim_start`. -/
def lstrip (l : List ℕ) : List ℕ := l.dropWhile isWs

/-- Drop trailing whitespace, as in `str::trim_end`. -/
def rstrip (l : List ℕ) : List ℕ := (l.reverse.dropWhile isWs).reverse

/-- Rust `str::trim`: whitespace removed from both ends. -/
def trim (l : List ℕ) : List ℕ := lstrip (rstrip l)

/-- Rust `trim_start_matches('#')`: drops every leading hash byte (35). -/
def stripHash (l : List ℕ) : List ℕ := l.dropWhile (fun b => decide (b = 35))

/-- ASCII lowercasing of one byte. -/
def toLowerByte (b : ℕ) : ℕ := if 65 ≤ b ∧ b ≤ 90 then b + 32 else b

/-- `bevy::prelude::Color` restricted to the `Srgba` representation, which is
the only one this module constructs: four normalized channels. -/
structure Color where
  red : ℚ
  green : ℚ
  blue : ℚ
  alpha : ℚ
deriving DecidableEq, Repr

/-- `Color::srgba`. -/
def Color.srgba (r g b a : ℚ) : Color := ⟨r, g, b, a⟩

/-- `Color::srgba_u8`: each byte divided by 255. -/
def Color.srgba_u8 (r g b a : ℕ) : Color :=
  ⟨(r : ℚ) / 255, (g : ℚ) / 255, (b : ℚ) / 255, (a : ℚ) / 255⟩

/-- `Color::WHITE`. -/
def Color.WHITE : Color := ⟨1, 1, 1, 1⟩

/-- `ElementsError`; only the variant used by this module, with the message
abstracted to the offending text. -/
inductive ElementsError where
  | InvalidPropertyValue (text : List ℕ)
deriving DecidableEq, Repr

/-- Value of one ASCII hex digit byte (0-9, a-f, A-F). -/
def hexVal (b : ℕ) : Option ℕ :=
  if 48 ≤ b ∧ b ≤ 57 then some (b - 48)
  else if 97 ≤ b ∧ b ≤ 102 then some (b - 87)
  else if 65 ≤ b ∧ b ≤ 70 then some (b - 55)
  else none

/-- Two hex digit bytes combined into one channel byte. -/
def hexPair (h1 h2 : ℕ) : Option ℕ :=
  (hexVal h1).bind fun x => (hexVal h2).map fun y => 16 * x + y

/-- Modelled from the spec: `cssparser::Color::parse_hash`, the HexDecoder of
spec section 4.1, is a dependency whose source is not under src/.  It
dispatches on the byte length: 8 and 6 digit forms read channel bytes from
digit pairs, 4 and 3 digit forms expand one digit d to the byte 17*d; the
alpha byte is 255 when absent and every other length or non-digit fails. -/
def parse_hash : List ℕ → Option (ℕ × ℕ × ℕ × ℕ)
  | [r1, r2, g1, g2, b1, b2, a1, a2] =>
    (hexPair r1 r2).bind fun r =>
      (hexPair g1 g2).bind fun g =>
        (hexPair b1 b2).bind fun b =>
          (hexPair a1 a2).map fun a => (r, g, b, a)
  | [r1, r2, g1, g2, b1, b2] =>
    (hexPair r1 r2).bind fun r =>
      (hexPair g1 g2).bind fun g =>
        (hexPair b1 b2).map fun b => (r, g, b, 255)
  | [r1, g1, b1, a1] =>
    (hexVal r1).bind fun r =>
      (hexVal g1).bind fun g =>
        (hexVal b1).bind fun b =>
          (hexVal a1).map fun a => (17 * r, 17 * g, 17 * b, 17 * a)
  | [r1, g1, b1] =>
    (hexVal r1).bind fun r =>
      (hexVal g1).bind fun g =>
        (hexVal b1).map fun b => (17 * r, 17 * g, 17 * b, 255)
  | _ => none

/-- `parse_hex_color`: decode via `parse_hash`, wrap bytes with `srgba_u8`,
or report `InvalidPropertyValue` carrying the offending text. -/
def parse_hex_color (hex : List ℕ) : Except ElementsError Color :=
  match parse_hash hex with
  | some (r, g, b, a) => .ok (Color.srgba_u8 r g b a)
  | none => .error (.InvalidPropertyValue hex)

/-- The text handed to `parse_hex_color` by `from_hex` and `try_from_hex`:
trimmed and with all leading hash bytes removed. -/
def hexContent (s : List ℕ) : List ℕ := stripHash (trim s)

/-- `ColorFromHexExtension::from_hex`: permissive parse, `Color::WHITE` on error. -/
def from_hex (s : List ℕ) : Color :=
  match parse_hex_color (hexContent s) with
  | .ok c => c
  | .error _ => Color.WHITE

/-- `ColorFromHexExtension::try_from_hex`: strict parse, error text surfaced. -/
def try_from_hex (s : List ℕ) : Except (List ℕ) Color :=
  match parse_hex_color (hexContent s) with
  | .ok c => .ok c
  | .error (.InvalidPropertyValue t) => .error t

/-- Rust `(channel * 256.0) as u8`: multiply by 256, truncate toward zero,
saturate into 0..255. -/
def floatToU8 (q : ℚ) : ℕ := min 255 (⌊q * 256⌋).toNat

/-- Lowercase hex digit byte of a value below 16 (format `{:x}`). -/
def toHexDigitByte (v : ℕ) : ℕ := if v < 10 then 48 + v else 87 + v

/-- Two lowercase hex digit bytes of a channel byte (format `{:02x}`). -/
def hex2 (n : ℕ) : List ℕ := [toHexDigitByte (n / 16), toHexDigitByte (n % 16)]

/-- `ColorFromHexExtension::get_hex`: hash byte then `rrggbb`, with the alpha
pair appended only when the quantized alpha byte differs from 255. -/
def get_hex (c : Color) : List ℕ :=
  let r := floatToU8 c.red
  let g := floatToU8 c.green
  let b := floatToU8 c.blue
  let a := floatToU8 c.alpha
  if a = 255 then 35 :: (hex2 r ++ hex2 g ++ hex2 b)
  else 35 :: (hex2 r ++ hex2 g ++ hex2 b ++ hex2 a)

/-- `ColorFromHexExtension::set_hex`: overwrite with the permissive parse. -/
def set_hex (_c : Color) (hex : List ℕ) : Color := from_hex hex

/-- A 4-decimal channel constant: the stored numerator divided by 10000.
`q4 7529` is the source literal `0.7529`. -/
def q4 (n : ℕ) : ℚ := (n : ℚ) / 10000

/-- One arm of the `parse_named_color` match: name bytes and the four channel
numerators scaled by 10000. -/
structure NamedEntry where
  key : List ℕ
  r : ℕ
  g : ℕ
  b : ℕ
  a : ℕ
deriving DecidableEq, Repr

/-- Entry constructor used to transcribe one match arm of the source. -/
def N (s : String) (r g b a : ℕ) : NamedEntry := ⟨s2b s, r, g, b, a⟩

/-- The match arms of `parse_named_color`, in source order; `N "silver" 7529
7529 7529 10000` transcribes `"silver" => Some(Color::srgba(0.7529, 0.7529,
0.7529, 1.0000))`. -/
def namedColorTable : List NamedEntry := [
  N "black" 0 0 0 10000,
  N "silver" 7529 7529 7529 10000,
  N "gray" 5020 5020 5020 10000,
  N "white" 10000 10000 10000 10000,
  N "maroon" 5020 0 0 10000,
  N "red" 10000 0 0 10000,
  N "purple" 5020 0 5020 10000,
  N "fuchsia" 10000 0 10000 10000,
  N "green" 0 5020 0 10000,
  N "lime" 0 10000 0 10000,
  N "olive" 5020 5020 0 10000,
  N "yellow" 10000 10000 0 10000,
  N "navy" 0 0 5020 10000,
  N "blue" 0 0 10000 10000,
  N "teal" 0 5020 5020 10000,
  N "aqua" 0 10000 10000 10000,
  N "orange" 10000 6471 0 10000,
  N "aliceblue" 9412 9725 10000 10000,
  N "antiquewhite" 9804 9216 8431 10000,
  N "aquamarine" 4980 10000 8314 10000,
  N "azure" 9412 10000 10000 10000,
  N "beige" 9608 9608 8627 10000,
  N "bisque" 10000 8941 7686 10000,
  N "blanchedalmond" 10000 9216 8039 10000,
  N "blueviolet" 5412 1686 8863 10000,
  N "brown" 6471 1647 1647 10000,
  N "burlywood" 8706 7216 5294 10000,
  N "cadetblue" 3725 6196 6275 10000,
  N "chartreuse" 4980 10000 0 10000,
  N "chocolate" 8235 4118 1176 10000,
  N "coral" 10000 4980 3137 10000,
  N "cornflowerblue" 3922 5843 9294 10000,
  N "cornsilk" 10000 9725 8627 10000,
  N "crimson" 8627 784 2353 10000,
  N "cyan" 0 10000 10000 10000,
  N "darkblue" 0 0 5451 10000,
  N "darkcyan" 0 5451 5451 10000,
  N "darkgoldenrod" 7216 5255 431 10000,
  N "darkgray" 6627 6627 6627 10000,
  N "darkgreen" 0 3922 0 10000,
  N "darkgrey" 6627 6627 6627 10000,
  N "darkkhaki" 7412 7176 4196 10000,
  N "darkmagenta" 5451 0 5451 10000,
  N "darkolivegreen" 3333 4196 1843 10000,
  N "darkorange" 10000 5490 0 10000,
  N "darkorchid" 6000 1961 8000 10000,
  N "darkred" 5451 0 0 10000,
  N "darksalmon" 9137 5882 4784 10000,
  N "darkseagreen" 5608 7373 5608 10000,
  N "darkslateblue" 2824 2392 5451 10000,
  N "darkslategray" 1843 3098 3098 10000,
  N "darkslategrey" 1843 3098 3098 10000,
  N "darkturquoise" 0 8078 8196 10000,
  N "darkviolet" 5804 0 8275 10000,
  N "deeppink" 10000 784 5765 10000,
  N "deepskyblue" 0 7490 10000 10000,
  N "dimgray" 4118 4118 4118 10000,
  N "dimgrey" 4118 4118 4118 10000,
  N "dodgerblue" 1176 5647 10000 10000,
  N "firebrick" 6980 1333 1333 10000,
  N "floralwhite" 10000 9804 9412 10000,
  N "forestgreen" 1333 5451 1333 10000,
  N "gainsboro" 8627 8627 8627 10000,
  N "ghostwhite" 9725 9725 10000 10000,
  N "gold" 10000 8431 0 10000,
  N "goldenrod" 8549 6471 1255 10000,
  N "greenyellow" 6784 10000 1843 10000,
  N "grey" 5020 5020 5020 10000,
  N "honeydew" 9412 10000 9412 10000,
  N "hotpink" 10000 4118 7059 10000,
  N "indianred" 8039 3608 3608 10000,
  N "indigo" 2941 0 5098 10000,
  N "ivory" 10000 10000 9412 10000,
  N "khaki" 9412 9020 5490 10000,
  N "lavender" 9020 9020 9804 10000,
  N "lavenderblush" 10000 9412 9608 10000,
  N "lawngreen" 4863 9882 0 10000,
  N "lemonchiffon" 10000 9804 8039 10000,
  N "lightblue" 6784 8471 9020 10000,
  N "lightcoral" 9412 5020 5020 10000,
  N "lightcyan" 8784 10000 10000 10000,
  N "lightgoldenrodyellow" 9804 9804 8235 10000,
  N "lightgray" 8275 8275 8275 10000,
  N "lightgreen" 5647 9333 5647 10000,
  N "lightgrey" 8275 8275 8275 10000,
  N "lightpink" 10000 7137 7569 10000,
  N "lightsalmon" 10000 6275 4784 10000,
  N "lightseagreen" 1255 6980 6667 10000,
  N "lightskyblue" 5294 8078 9804 10000,
  N "lightslategray" 4667 5333 6000 10000,
  N "lightslategrey" 4667 5333 6000 10000,
  N "lightsteelblue" 6902 7686 8706 10000,
  N "lightyellow" 10000 10000 8784 10000,
  N "limegreen" 1961 8039 1961 10000,
  N "linen" 9804 9412 9020 10000,
  N "magenta" 10000 0 10000 10000,
  N "mediumaquamarine" 4000 8039 6667 10000,
  N "mediumblue" 0 0 8039 10000,
  N "mediumorchid" 7294 3333 8275 10000,
  N "mediumpurple" 5765 4392 8588 10000,
  N "mediumseagreen" 2353 7020 4431 10000,
  N "mediumslateblue" 4824 4078 9333 10000,
  N "mediumspringgreen" 0 9804 6039 10000,
  N "mediumturquoise" 2824 8196 8000 10000,
  N "mediumvioletred" 7804 824 5216 10000,
  N "midnightblue" 980 980 4392 10000,
  N "mintcream" 9608 10000 9804 10000,
  N "mistyrose" 10000 8941 8824 10000,
  N "moccasin" 10000 8941 7098 10000,
  N "navajowhite" 10000 8706 6784 10000,
  N "oldlace" 9922 9608 9020 10000,
  N "olivedrab" 4196 5569 1373 10000,
  N "orangered" 10000 2706 0 10000,
  N "orchid" 8549 4392 8392 10000,
  N "palegoldenrod" 9333 9098 6667 10000,
  N "palegreen" 5961 9843 5961 10000,
  N "paleturquoise" 6863 9333 9333 10000,
  N "palevioletred" 8588 4392 5765 10000,
  N "papayawhip" 10000 9373 8353 10000,
  N "peachpuff" 10000 8549 7255 10000,
  N "peru" 8039 5216 2471 10000,
  N "pink" 10000 7529 7961 10000,
  N "plum" 8667 6275 8667 10000,
  N "powderblue" 6902 8784 9020 10000,
  N "rosybrown" 7373 5608 5608 10000,
  N "royalblue" 2549 4118 8824 10000,
  N "saddlebrown" 5451 2706 745 10000,
  N "salmon" 9804 5020 4471 10000,
  N "sandybrown" 9569 6431 3765 10000,
  N "seagreen" 1804 5451 3412 10000,
  N "seashell" 10000 9608 9333 10000,
  N "sienna" 6275 3216 1765 10000,
  N "skyblue" 5294 8078 9216 10000,
  N "slateblue" 4157 3529 8039 10000,
  N "slategray" 4392 5020 5647 10000,
  N "slategrey" 4392 5020 5647 10000,
  N "snow" 10000 9804 9804 10000,
  N "springgreen" 0 10000 4980 10000,
  N "steelblue" 2745 5098 7059 10000,
  N "tan" 8235 7059 5490 10000,
  N "thistle" 8471 7490 8471 10000,
  N "tomato" 10000 3882 2784 10000,
  N "transparent" 0 0 0 0,
  N "turquoise" 2510 8784 8157 10000,
  N "violet" 9333 5098 9333 10000,
  N "wheat" 9608 8706 7020 10000,
  N "whitesmoke" 9608 9608 9608 10000,
  N "yellowgreen" 6039 8039 1961 10000,
  N "rebeccapurple" 4000 2000 6000 10000]

/-- The arm of `parse_named_color` whose pattern equals the given name, if any;
sequential match on distinct string patterns is first-match lookup. -/
def lookupEntry (name : List ℕ) : Option NamedEntry :=
  namedColorTable.find? (fun e => decide (e.key = name))

/-- `parse_named_color`: named lookup producing the srgba constants. -/
def parse_named_color (name : List ℕ) : Option Color :=
  (lookupEntry name).map (fun e => Color.srgba (q4 e.r) (q4 e.g) (q4 e.b) (q4 e.a))

/-- Modelled from the spec: the text a spec section 4.3 `parse` hands to the
HexDecoder, the trimmed input with one optional leading hash byte removed. -/
def specHexBody (text : List ℕ) : List ℕ :=
  if (trim text).head? = some 35 then (trim text).tail else trim text

/-- Modelled from the spec: the ColorCodec `parse` of spec section 4.3.  The
repository-level combinator that resolves hex before named colors is not part
of src/ (only its two components are); per the spec it trims surrounding
whitespace, strips an optional leading hash, tries the hex decoder on the
remainder, and otherwise looks the trimmed text up in the named table. -/
def parse (text : List ℕ) : Except ElementsError Color :=
  match parse_hex_color (specHexBody text) with
  | .ok c => .ok c
  | .error e =>
    match parse_named_color (trim text) with
    | some c => .ok c
    | none => .error e

/-- Modelled from the spec: the CSS named-color value of claim C8, a CSS
8-bit channel value divided by 255 and rounded to 4 decimal places;
`round4 b` is that value scaled by 10000 (no tie ever arises). -/
def round4 (b : ℕ) : ℕ := (20000 * b + 255) / 510

/-- Modelled from the spec: the CSS Level 1 to 4 named-color specification
referenced by claim C8, as name and 8-bit channel triple (148 names). -/
def cssNamedColors : List (List ℕ × ℕ × ℕ × ℕ) := [
  (s2b "aliceblue", 240, 248, 255),
  (s2b "antiquewhite", 250, 235, 215),
  (s2b "aqua", 0, 255, 255),
  (s2b "aquamarine", 127, 255, 212),
  (s2b "azure", 240, 255, 255),
  (s2b "beige", 245, 245, 220),
  (s2b "bisque", 255, 228, 196),
  (s2b "black", 0, 0, 0),
  (s2b "blanchedalmond", 255, 235, 205),
  (s2b "blue", 0, 0, 255),
  (s2b "blueviolet", 138, 43, 226),
  (s2b "brown", 165, 42, 42),
  (s2b "burlywood", 222, 184, 135),
  (s2b "cadetblue", 95, 158, 160),
  (s2b "chartreuse", 127, 255, 0),
  (s2b "chocolate", 210, 105, 30),
  (s2b "coral", 255, 127, 80),
  (s2b "cornflowerblue", 100, 149, 237),
  (s2b "cornsilk", 255, 248, 220),
  (s2b "crimson", 220, 20, 60),
  (s2b "cyan", 0, 255, 255),
  (s2b "darkblue", 0, 0, 139),
  (s2b "darkcyan", 0, 139, 139),
  (s2b "darkgoldenrod", 184, 134, 11),
  (s2b "darkgray", 169, 169, 169),
  (s2b "darkgreen", 0, 100, 0),
  (s2b "darkgrey", 169, 169, 169),
  (s2b "darkkhaki", 189, 183, 107),
  (s2b "darkmagenta", 139, 0, 139),
  (s2b "darkolivegreen", 85, 107, 47),
  (s2b "darkorange", 255, 140, 0),
  (s2b "darkorchid", 153, 50, 204),
  (s2b "darkred", 139, 0, 0),
  (s2b "darksalmon", 233, 150, 122),
  (s2b "darkseagreen", 143, 188, 143),
  (s2b "darkslateblue", 72, 61, 139),
  (s2b "darkslategray", 47, 79, 79),
  (s2b "darkslategrey", 47, 79, 79),
  (s2b "darkturquoise", 0, 206, 209),
  (s2b "darkviolet", 148, 0, 211),
  (s2b "deeppink", 255, 20, 147),
  (s2b "deepskyblue", 0, 191, 255),
  (s2b "dimgray", 105, 105, 105),
  (s2b "dimgrey", 105, 105, 105),
  (s2b "dodgerblue", 30, 144, 255),
  (s2b "firebrick", 178, 34, 34),
  (s2b "floralwhite", 255, 250, 240),
  (s2b "forestgreen", 34, 139, 34),
  (s2b "fuchsia", 255, 0, 255),
  (s2b "gainsboro", 220, 220, 220),
  (s2b "ghostwhite", 248, 248, 255),
  (s2b "gold", 255, 215, 0),
  (s2b "goldenrod", 218, 165, 32),
  (s2b "gray", 128, 128, 128),
  (s2b "green", 0, 128, 0),
  (s2b "greenyellow", 173, 255, 47),
  (s2b "grey", 128, 128, 128),
  (s2b "honeydew", 240, 255, 240),
  (s2b "hotpink", 255, 105, 180),
  (s2b "indianred", 205, 92, 92),
  (s2b "indigo", 75, 0, 130),
  (s2b "ivory", 255, 255, 240),
  (s2b "khaki", 240, 230, 140),
  (s2b "lavender", 230, 230, 250),
  (s2b "lavenderblush", 255, 240, 245),
  (s2b "lawngreen", 124, 252, 0),
  (s2b "lemonchiffon", 255, 250, 205),
  (s2b "lightblue", 173, 216, 230),
  (s2b "lightcoral", 240, 128, 128),
  (s2b "lightcyan", 224, 255, 255),
  (s2b "lightgoldenrodyellow", 250, 250, 210),
  (s2b "lightgray", 211, 211, 211),
  (s2b "lightgreen", 144, 238, 144),
  (s2b "lightgrey", 211, 211, 211),
  (s2b "lightpink", 255, 182, 193),
  (s2b "lightsalmon", 255, 160, 122),
  (s2b "lightseagreen", 32, 178, 170),
  (s2b "lightskyblue", 135, 206, 250),
  (s2b "lightslategray", 119, 136, 153),
  (s2b "lightslategrey", 119, 136, 153),
  (s2b "lightsteelblue", 176, 196, 222),
  (s2b "lightyellow", 255, 255, 224),
  (s2b "lime", 0, 255, 0),
  (s2b "limegreen", 50, 205, 50),
  (s2b "linen", 250, 240, 230),
  (s2b "magenta", 255, 0, 255),
  (s2b "maroon", 128, 0, 0),
  (s2b "mediumaquamarine", 102, 205, 170),
  (s2b "mediumblue", 0, 0, 205),
  (s2b "mediumorchid", 186, 85, 211),
  (s2b "mediumpurple", 147, 112, 219),
  (s2b "mediumseagreen", 60, 179, 113),
  (s2b "mediumslateblue", 123, 104, 238),
  (s2b "mediumspringgreen", 0, 250, 154),
  (s2b "mediumturquoise", 72, 209, 204),
  (s2b "mediumvioletred", 199, 21, 133),
  (s2b "midnightblue", 25, 25, 112),
  (s2b "mintcream", 245, 255, 250),
  (s2b "mistyrose", 255, 228, 225),
  (s2b "moccasin", 255, 228, 181),
  (s2b "navajowhite", 255, 222, 173),
  (s2b "navy", 0, 0, 128),
  (s2b "oldlace", 253, 245, 230),
  (s2b "olive", 128, 128, 0),
  (s2b "olivedrab", 107, 142, 35),
  (s2b "orange", 255, 165, 0),
  (s2b "orangered", 255, 69, 0),
  (s2b "orchid", 218, 112, 214),
  (s2b "palegoldenrod", 238, 232, 170),
  (s2b "palegreen", 152, 251, 152),
  (s2b "paleturquoise", 175, 238, 238),
  (s2b "palevioletred", 219, 112, 147),
  (s2b "papayawhip", 255, 239, 213),
  (s2b "peachpuff", 255, 218, 185),
  (s2b "peru", 205, 133, 63),
  (s2b "pink", 255, 192, 203),
  (s2b "plum", 221, 160, 221),
  (s2b "powderblue", 176, 224, 230),
  (s2b "purple", 128, 0, 128),
  (s2b "red", 255, 0, 0),
  (s2b "rebeccapurple", 102, 51, 153),
  (s2b "rosybrown", 188, 143, 143),
  (s2b "royalblue", 65, 105, 225),
  (s2b "saddlebrown", 139, 69, 19),
  (s2b "salmon", 250, 128, 114),
  (s2b "sandybrown", 244, 164, 96),
  (s2b "seagreen", 46, 139, 87),
  (s2b "seashell", 255, 245, 238),
  (s2b "sienna", 160, 82, 45),
  (s2b "silver", 192, 192, 192),
  (s2b "skyblue", 135, 206, 235),
  (s2b "slateblue", 106, 90, 205),
  (s2b "slategray", 112, 128, 144),
  (s2b "slategrey", 112, 128, 144),
  (s2b "snow", 255, 250, 250),
  (s2b "springgreen", 0, 255, 127),
  (s2b "steelblue", 70, 130, 180),
  (s2b "tan", 210, 180, 140),
  (s2b "teal", 0, 128, 128),
  (s2b "thistle", 216, 191, 216),
  (s2b "tomato", 255, 99, 71),
  (s2b "turquoise", 64, 224, 208),
  (s2b "violet", 238, 130, 238),
  (s2b "wheat", 245, 222, 179),
  (s2b "white", 255, 255, 255),
  (s2b "whitesmoke", 245, 245, 245),
  (s2b "yellow", 255, 255, 0),
  (s2b "yellowgreen", 154, 205, 50)]

/-- A byte that is a lowercase hex digit. -/
def isLowerHexDigit (d : ℕ) : Bool := (hexVal d).isSome && decide (toLowerByte d = d)

/-- All four channels inside the normalized range. -/
def inRange (c : Color) : Prop :=
  0 ≤ c.red ∧ c.red ≤ 1 ∧ 0 ≤ c.green ∧ c.green ≤ 1 ∧
  0 ≤ c.blue ∧ c.blue ≤ 1 ∧ 0 ≤ c.alpha ∧ c.alpha ≤ 1


/-! ### Helper lemmas -/

theorem hexVal_facts {b v : ℕ} (h : hexVal b = some v) :
    v ≤ 15 ∧ toHexDigitByte v = toLowerByte b ∧ isWs b = false ∧ b ≠ 35 := by
  unfold hexVal at h
  split_ifs at h with h1 h2 h3 <;> injection h with h <;> subst h <;>
    simp only [toHexDigitByte, toLowerByte, isWs, decide_eq_false_iff_not] <;>
    split_ifs <;> omega

theorem hexVal_lower_f {b v : ℕ} (h : hexVal b = some v) : toLowerByte b = 102 ↔ v = 15 := by
  have hf := hexVal_facts h
  constructor
  · intro hl
    have hd := hf.2.1
    rw [hl] at hd
    unfold toHexDigitByte at hd
    split_ifs at hd <;> omega
  · intro hv
    subst hv
    rw [← hf.2.1]
    rfl

theorem dropWhile_eq_self {p : ℕ → Bool} {l : List ℕ} (h : ∀ b ∈ l, p b = false) :
    l.dropWhile p = l := by
  cases l with
  | nil => rfl
  | cons a t =>
    rw [List.dropWhile_cons, h a (by simp)]
    simp

theorem rstrip_eq_self {l : List ℕ} (h : ∀ b ∈ l, isWs b = false) : rstrip l = l := by
  unfold rstrip
  rw [dropWhile_eq_self (fun b hb => h b (List.mem_reverse.mp hb))]
  exact List.reverse_reverse l

theorem stripHash_cons_ne {a : ℕ} {t : List ℕ} (h : a ≠ 35) : stripHash (a :: t) = a :: t := by
  unfold stripHash
  rw [List.dropWhile_cons]
  simp [h]

theorem stripHash_cons_35 (t : List ℕ) : stripHash (35 :: t) = stripHash t := by
  unfold stripHash
  rw [List.dropWhile_cons]
  simp

theorem rstrip_cons_35 (t : List ℕ) : rstrip (35 :: t) = 35 :: rstrip t := by
  unfold rstrip
  rw [List.reverse_cons, List.dropWhile_append]
  split
  · rename_i hemp
    simp only [List.isEmpty_iff] at hemp
    simp [hemp, List.dropWhile, isWs]
  · simp

theorem lstrip_cons_35 (t : List ℕ) : lstrip (35 :: t) = 35 :: t := by
  unfold lstrip
  rw [List.dropWhile_cons]
  simp [isWs]

theorem trim_cons_35 (t : List ℕ) : trim (35 :: t) = 35 :: rstrip t := by
  unfold trim
  rw [rstrip_cons_35, lstrip_cons_35]

theorem hexContent_cons_35 (t : List ℕ) : hexContent (35 :: t) = stripHash (rstrip t) := by
  unfold hexContent
  rw [trim_cons_35, stripHash_cons_35]

theorem hexContent_hash_hex {l : List ℕ} (hl : ∀ x ∈ l, (hexVal x).isSome) :
    hexContent (35 :: l) = l := by
  rw [hexContent_cons_35]
  have hws : ∀ x ∈ l, isWs x = false := by
    intro x hx
    obtain ⟨v, hv⟩ := Option.isSome_iff_exists.mp (hl x hx)
    exact (hexVal_facts hv).2.2.1
  rw [rstrip_eq_self hws]
  cases l with
  | nil => rfl
  | cons a t =>
    obtain ⟨v, hv⟩ := Option.isSome_iff_exists.mp (hl a (by simp))
    exact stripHash_cons_ne (hexVal_facts hv).2.2.2

theorem floatToU8_div255 {n : ℕ} (h : n ≤ 255) : floatToU8 ((n : ℚ) / 255) = n := by
  rcases Nat.lt_or_ge n 255 with hlt | hge
  · have hfloor : ⌊((n : ℚ) / 255) * 256⌋ = (n : ℤ) := by
      rw [Int.floor_eq_iff]
      constructor
      · rw [div_mul_eq_mul_div, le_div_iff₀ (by norm_num : (0:ℚ) < 255)]
        push_cast
        nlinarith [Nat.cast_nonneg (α := ℚ) n]
      · rw [div_mul_eq_mul_div, div_lt_iff₀ (by norm_num : (0:ℚ) < 255)]
        have : (n : ℚ) < 255 := by exact_mod_cast hlt
        push_cast
        nlinarith
    simp [floatToU8, hfloor]
    omega
  · have hn : n = 255 := le_antisymm h hge
    subst hn
    have h1 : ((255 : ℕ) : ℚ) / 255 = 1 := by norm_num
    rw [floatToU8, h1]
    norm_num

theorem get_hex_srgba_u8 {r g b a : ℕ} (hr : r ≤ 255) (hg : g ≤ 255) (hb : b ≤ 255)
    (ha : a ≤ 255) :
    get_hex (Color.srgba_u8 r g b a) =
      if a = 255 then 35 :: (hex2 r ++ hex2 g ++ hex2 b)
      else 35 :: (hex2 r ++ hex2 g ++ hex2 b ++ hex2 a) := by
  unfold get_hex Color.srgba_u8
  simp only
  rw [floatToU8_div255 hr, floatToU8_div255 hg, floatToU8_div255 hb, floatToU8_div255 ha]

theorem hex2_digits {v1 v2 : ℕ} (h2 : v2 ≤ 15) :
    hex2 (16 * v1 + v2) = [toHexDigitByte v1, toHexDigitByte v2] := by
  unfold hex2
  rw [show (16 * v1 + v2) / 16 = v1 by omega, show (16 * v1 + v2) % 16 = v2 by omega]

theorem parse_hash_3 {b1 b2 b3 v1 v2 v3 : ℕ} (h1 : hexVal b1 = some v1)
    (h2 : hexVal b2 = some v2) (h3 : hexVal b3 = some v3) :
    parse_hash [b1, b2, b3] = some (17 * v1, 17 * v2, 17 * v3, 255) := by
  simp [parse_hash, h1, h2, h3]

theorem parse_hash_6 {b1 b2 b3 b4 b5 b6 v1 v2 v3 v4 v5 v6 : ℕ}
    (h1 : hexVal b1 = some v1) (h2 : hexVal b2 = some v2) (h3 : hexVal b3 = some v3)
    (h4 : hexVal b4 = some v4) (h5 : hexVal b5 = some v5) (h6 : hexVal b6 = some v6) :
    parse_hash [b1, b2, b3, b4, b5, b6] =
      some (16 * v1 + v2, 16 * v3 + v4, 16 * v5 + v6, 255) := by
  simp [parse_hash, hexPair, h1, h2, h3, h4, h5, h6]

theorem parse_hash_8 {b1 b2 b3 b4 b5 b6 b7 b8 v1 v2 v3 v4 v5 v6 v7 v8 : ℕ}
    (h1 : hexVal b1 = some v1) (h2 : hexVal b2 = some v2) (h3 : hexVal b3 = some v3)
    (h4 : hexVal b4 = some v4) (h5 : hexVal b5 = some v5) (h6 : hexVal b6 = some v6)
    (h7 : hexVal b7 = some v7) (h8 : hexVal b8 = some v8) :
    parse_hash [b1, b2, b3, b4, b5, b6, b7, b8] =
      some (16 * v1 + v2, 16 * v3 + v4, 16 * v5 + v6, 16 * v7 + v8) := by
  simp [parse_hash, hexPair, h1, h2, h3, h4, h5, h6, h7, h8]

theorem parse_hash_some {l : List ℕ} {r g b a : ℕ} (h : parse_hash l = some (r, g, b, a)) :
    (l.length = 3 ∨ l.length = 4 ∨ l.length = 6 ∨ l.length = 8) ∧
    (∀ x ∈ l, (hexVal x).isSome) ∧ r ≤ 255 ∧ g ≤ 255 ∧ b ≤ 255 ∧ a ≤ 255 := by
  rcases l with _ | ⟨x1, _ | ⟨x2, _ | ⟨x3, _ | ⟨x4, _ | ⟨x5, _ | ⟨x6, _ | ⟨x7, _ | ⟨x8, _ | ⟨x9, t⟩⟩⟩⟩⟩⟩⟩⟩⟩
  · simp [parse_hash] at h
  · simp [parse_hash] at h
  · simp [parse_hash] at h
  · -- length 3
    simp only [parse_hash, Option.bind_eq_some, Option.map_eq_some'] at h
    obtain ⟨v1, h1, v2, h2, v3, h3, he⟩ := h
    simp only [Prod.mk.injEq] at he
    obtain ⟨e1, e2, e3, e4⟩ := he
    have f1 := hexVal_facts h1
    have f2 := hexVal_facts h2
    have f3 := hexVal_facts h3
    refine ⟨by simp, ?_, by omega, by omega, by omega, by omega⟩
    intro x hx
    rcases List.mem_cons.mp hx with rfl | hx
    · simp [h1]
    rcases List.mem_cons.mp hx with rfl | hx
    · simp [h2]
    rcases List.mem_cons.mp hx with rfl | hx
    · simp [h3]
    simp at hx
  · -- length 4
    simp only [parse_hash, Option.bind_eq_some, Option.map_eq_some'] at h
    obtain ⟨v1, h1, v2, h2, v3, h3, v4, h4, he⟩ := h
    simp only [Prod.mk.injEq] at he
    obtain ⟨e1, e2, e3, e4⟩ := he
    have f1 := hexVal_facts h1
    have f2 := hexVal_facts h2
    have f3 := hexVal_facts h3
    have f4 := hexVal_facts h4
    refine ⟨by simp, ?_, by omega, by omega, by omega, by omega⟩
    intro x hx
    rcases List.mem_cons.mp hx with rfl | hx
    · simp [h1]
    rcases List.mem_cons.mp hx with rfl | hx
    · simp [h2]
    rcases List.mem_cons.mp hx with rfl | hx
    · simp [h3]
    rcases List.mem_cons.mp hx with rfl | hx
    · simp [h4]
    simp at hx
  · simp [parse_hash] at h
  · -- length 6
    simp only [parse_hash, hexPair, Option.bind_eq_some, Option.map_eq_some'] at h
    obtain ⟨r1, ⟨v1, h1, v2, h2, e1⟩, g1, ⟨v3, h3, v4, h4, e2⟩, b1, ⟨v5, h5, v6, h6, e3⟩, he⟩ := h
    simp only [Prod.mk.injEq] at he
    obtain ⟨f1, f2, f3, f4⟩ := he
    have g1f := hexVal_facts h1
    have g2f := hexVal_facts h2
    have g3f := hexVal_facts h3
    have g4f := hexVal_facts h4
    have g5f := hexVal_facts h5
    have g6f := hexVal_facts h6
    refine ⟨by simp, ?_, by omega, by omega, by omega, by omega⟩
    intro x hx
    rcases List.mem_cons.mp hx with rfl | hx
    · simp [h1]
    rcases List.mem_cons.mp hx with rfl | hx
    · simp [h2]
    rcases List.mem_cons.mp hx with rfl | hx
    · simp [h3]
    rcases List.mem_cons.mp hx with rfl | hx
    · simp [h4]
    rcases List.mem_cons.mp hx with rfl | hx
    · simp [h5]
    rcases List.mem_cons.mp hx with rfl | hx
    · simp [h6]
    simp at hx
  · simp [parse_hash] at h
  · -- length 8
    simp only [parse_hash, hexPair, Option.bind_eq_some, Option.map_eq_some'] at h
    obtain ⟨r1, ⟨v1, h1, v2, h2, e1⟩, g1, ⟨v3, h3, v4, h4, e2⟩, b1, ⟨v5, h5, v6, h6, e3⟩,
      a1, ⟨v7, h7, v8, h8, e4⟩, he⟩ := h
    simp only [Prod.mk.injEq] at he
    obtain ⟨f1, f2, f3, f4⟩ := he
    have g1f := hexVal_facts h1
    have g2f := hexVal_facts h2
    have g3f := hexVal_facts h3
    have g4f := hexVal_facts h4
    have g5f := hexVal_facts h5
    have g6f := hexVal_facts h6
    have g7f := hexVal_facts h7
    have g8f := hexVal_facts h8
    refine ⟨by simp, ?_, by omega, by omega, by omega, by omega⟩
    intro x hx
    rcases List.mem_cons.mp hx with rfl | hx
    · simp [h1]
    rcases List.mem_cons.mp hx with rfl | hx
    · simp [h2]
    rcases List.mem_cons.mp hx with rfl | hx
    · simp [h3]
    rcases List.mem_cons.mp hx with rfl | hx
    · simp [h4]
    rcases List.mem_cons.mp hx with rfl | hx
    · simp [h5]
    rcases List.mem_cons.mp hx with rfl | hx
    · simp [h6]
    rcases List.mem_cons.mp hx with rfl | hx
    · simp [h7]
    rcases List.mem_cons.mp hx with rfl | hx
    · simp [h8]
    simp at hx
  · simp [parse_hash] at h

theorem srgba_u8_inRange {r g b a : ℕ} (hr : r ≤ 255) (hg : g ≤ 255) (hb : b ≤ 255)
    (ha : a ≤ 255) : inRange (Color.srgba_u8 r g b a) := by
  unfold inRange Color.srgba_u8
  have bound : ∀ n : ℕ, n ≤ 255 → 0 ≤ (n : ℚ) / 255 ∧ (n : ℚ) / 255 ≤ 1 := by
    intro n hn
    constructor
    · positivity
    · rw [div_le_one (by norm_num : (0:ℚ) < 255)]
      exact_mod_cast hn
  exact ⟨(bound r hr).1, (bound r hr).2, (bound g hg).1, (bound g hg).2,
    (bound b hb).1, (bound b hb).2, (bound a ha).1, (bound a ha).2⟩

theorem q4_range {n : ℕ} (h : n ≤ 10000) : 0 ≤ q4 n ∧ q4 n ≤ 1 := by
  unfold q4
  constructor
  · positivity
  · rw [div_le_one (by norm_num : (0:ℚ) < 10000)]
    exact_mod_cast h

theorem isLower_toHexDigitByte {v : ℕ} (h : v ≤ 15) :
    isLowerHexDigit (toHexDigitByte v) = true := by
  interval_cases v <;> decide

theorem hex2_all_lower {n : ℕ} (h : n ≤ 255) :
    (hex2 n).all isLowerHexDigit = true := by
  unfold hex2
  simp only [List.all_cons, List.all_nil, Bool.and_true]
  rw [isLower_toHexDigitByte (by omega), isLower_toHexDigitByte (by omega)]
  rfl

theorem floatToU8_le (q : ℚ) : floatToU8 q ≤ 255 := Nat.min_le_left _ _

theorem strip35 (m : ℕ) (l : List ℕ) :
    stripHash (rstrip (List.replicate m 35 ++ l)) = stripHash (rstrip l) := by
  induction m with
  | zero => simp
  | succ k ih =>
    rw [List.replicate_succ, List.cons_append, rstrip_cons_35, stripHash_cons_35, ih]

theorem hexContent_replicate {n : ℕ} (l : List ℕ) (hn : 1 ≤ n) :
    hexContent (List.replicate n 35 ++ l) = hexContent (35 :: l) := by
  obtain ⟨k, rfl⟩ : ∃ k, n = k + 1 := ⟨n - 1, by omega⟩
  rw [List.replicate_succ, List.cons_append, hexContent_cons_35, hexContent_cons_35, strip35]



theorem from_hex_eq (s : List ℕ) :
    (∃ r g b a, parse_hash (hexContent s) = some (r, g, b, a) ∧
        from_hex s = Color.srgba_u8 r g b a ∧
        try_from_hex s = .ok (Color.srgba_u8 r g b a)) ∨
    (parse_hash (hexContent s) = none ∧ from_hex s = Color.WHITE ∧
        try_from_hex s = .error (hexContent s)) := by
  unfold from_hex try_from_hex parse_hex_color
  cases hph : parse_hash (hexContent s) with
  | none => exact Or.inr ⟨rfl, rfl, rfl⟩
  | some t =>
    obtain ⟨r, g, b, a⟩ := t
    exact Or.inl ⟨r, g, b, a, rfl, rfl, rfl⟩

/-- C1: the spec-modelled parse resolves hex before named lookup: a successful hex
decode of the trimmed, hash-stripped remainder wins, otherwise the trimmed text is
looked up as a name; in particular parse of red and parse of hash-ff0000 agree and
are opaque full red. -/
theorem parse_resolution :
    (∀ t c, parse_hex_color (specHexBody t) = .ok c → parse t = .ok c) ∧
    (∀ t e, parse_hex_color (specHexBody t) = .error e →
        parse t = (parse_named_color (trim t)).elim (Except.error e) Except.ok) ∧
    parse (s2b "red") = parse (s2b "#ff0000") ∧
    parse (s2b "red") = .ok (Color.srgba 1 0 0 1) := by
  have hred : parse (s2b "red") = .ok (Color.srgba (q4 10000) (q4 0) (q4 0) (q4 10000)) := rfl
  have hhex : parse (s2b "#ff0000") = .ok (Color.srgba_u8 255 0 0 255) := rfl
  have hcol : Color.srgba (q4 10000) (q4 0) (q4 0) (q4 10000) = Color.srgba 1 0 0 1 := by
    simp only [Color.srgba, Color.mk.injEq, q4]
    norm_num
  have hcol2 : Color.srgba 1 0 0 1 = Color.srgba_u8 255 0 0 255 := by
    simp only [Color.srgba, Color.srgba_u8, Color.mk.injEq]
    norm_num
  refine ⟨?_, ?_, ?_, ?_⟩
  · intro t c h
    unfold parse
    rw [h]
  · intro t e h
    unfold parse
    rw [h]
    cases parse_named_color (trim t) <;> rfl
  · rw [hred, hhex, hcol, hcol2]
  · rw [hred, hcol]

/-- Witness for C1 at a concrete input. -/
theorem parse_resolution_witness :
    parse (s2b "#fff") = .ok (Color.srgba_u8 255 255 255 255) :=
  parse_resolution.1 (s2b "#fff") (Color.srgba_u8 255 255 255 255) rfl

/-- C2: for every valid 6-digit hex string, formatting the parsed color returns the
string lowercased, with the leading hash, the decoded alpha being the opaque
default byte 255. -/
theorem hex6_roundtrip (l : List ℕ) (hlen : l.length = 6)
    (hhex : ∀ x ∈ l, (hexVal x).isSome) :
    get_hex (from_hex (35 :: l)) = 35 :: l.map toLowerByte := by
  obtain ⟨b1, b2, b3, b4, b5, b6, rfl⟩ :
      ∃ b1 b2 b3 b4 b5 b6, l = [b1, b2, b3, b4, b5, b6] := by
    rcases l with _ | ⟨c1, _ | ⟨c2, _ | ⟨c3, _ | ⟨c4, _ | ⟨c5, _ | ⟨c6, _ | ⟨c7, t⟩⟩⟩⟩⟩⟩⟩ <;>
      simp only [List.length_cons, List.length_nil] at hlen <;>
      first | omega | exact ⟨_, _, _, _, _, _, rfl⟩
  obtain ⟨v1, hv1⟩ := Option.isSome_iff_exists.mp (hhex b1 (by simp))
  obtain ⟨v2, hv2⟩ := Option.isSome_iff_exists.mp (hhex b2 (by simp))
  obtain ⟨v3, hv3⟩ := Option.isSome_iff_exists.mp (hhex b3 (by simp))
  obtain ⟨v4, hv4⟩ := Option.isSome_iff_exists.mp (hhex b4 (by simp))
  obtain ⟨v5, hv5⟩ := Option.isSome_iff_exists.mp (hhex b5 (by simp))
  obtain ⟨v6, hv6⟩ := Option.isSome_iff_exists.mp (hhex b6 (by simp))
  have w1 : v1 ≤ 15 := (hexVal_facts hv1).1
  have w2 : v2 ≤ 15 := (hexVal_facts hv2).1
  have w3 : v3 ≤ 15 := (hexVal_facts hv3).1
  have w4 : v4 ≤ 15 := (hexVal_facts hv4).1
  have w5 : v5 ≤ 15 := (hexVal_facts hv5).1
  have w6 : v6 ≤ 15 := (hexVal_facts hv6).1
  have t1 : toHexDigitByte v1 = toLowerByte b1 := (hexVal_facts hv1).2.1
  have t2 : toHexDigitByte v2 = toLowerByte b2 := (hexVal_facts hv2).2.1
  have t3 : toHexDigitByte v3 = toLowerByte b3 := (hexVal_facts hv3).2.1
  have t4 : toHexDigitByte v4 = toLowerByte b4 := (hexVal_facts hv4).2.1
  have t5 : toHexDigitByte v5 = toLowerByte b5 := (hexVal_facts hv5).2.1
  have t6 : toHexDigitByte v6 = toLowerByte b6 := (hexVal_facts hv6).2.1
  have hfh : from_hex (35 :: [b1, b2, b3, b4, b5, b6]) =
      Color.srgba_u8 (16 * v1 + v2) (16 * v3 + v4) (16 * v5 + v6) 255 := by
    unfold from_hex parse_hex_color
    rw [hexContent_hash_hex hhex, parse_hash_6 hv1 hv2 hv3 hv4 hv5 hv6]
  rw [hfh, get_hex_srgba_u8 (by omega) (by omega) (by omega) (by omega), if_pos rfl,
    hex2_digits w2, hex2_digits w4, hex2_digits w6]
  simp [t1, t2, t3, t4, t5, t6]

/-- Witness for C2 at a concrete input. -/
theorem hex6_roundtrip_witness :
    get_hex (from_hex (35 :: s2b "A1b2C3")) = 35 :: (s2b "A1b2C3").map toLowerByte :=
  hex6_roundtrip (s2b "A1b2C3") (by decide) (by decide)

/-- C3 (counterexample): an 8-digit hex string whose alpha digits are ff does not
round trip to itself: the format side emits the 6-digit form whenever the
quantized alpha byte is 255. -/
theorem hex8_ff_counterexample :
    ¬ get_hex (from_hex (s2b "#000000ff")) = s2b "#000000ff" := by
  have h1 : from_hex (s2b "#000000ff") = Color.srgba_u8 0 0 0 255 := rfl
  rw [h1, get_hex_srgba_u8 (by omega) (by omega) (by omega) (by omega), if_pos rfl]
  decide

/-- C3 (amended): for valid 8-digit hex strings the round trip reproduces the
lowercased input exactly when the alpha digit pair is not ff; when it is ff the
format side drops the alpha pair and returns the 6-digit form. -/
theorem hex8_roundtrip (l : List ℕ) (hlen : l.length = 8)
    (hhex : ∀ x ∈ l, (hexVal x).isSome) :
    ((l.drop 6).map toLowerByte = [102, 102] →
        get_hex (from_hex (35 :: l)) = 35 :: (l.take 6).map toLowerByte) ∧
    ((l.drop 6).map toLowerByte ≠ [102, 102] →
        get_hex (from_hex (35 :: l)) = 35 :: l.map toLowerByte) := by
  obtain ⟨b1, b2, b3, b4, b5, b6, b7, b8, rfl⟩ :
      ∃ b1 b2 b3 b4 b5 b6 b7 b8, l = [b1, b2, b3, b4, b5, b6, b7, b8] := by
    rcases l with _ | ⟨c1, _ | ⟨c2, _ | ⟨c3, _ | ⟨c4, _ | ⟨c5, _ | ⟨c6, _ | ⟨c7, _ | ⟨c8, _ | ⟨c9, t⟩⟩⟩⟩⟩⟩⟩⟩⟩ <;>
      simp only [List.length_cons, List.length_nil] at hlen <;>
      first | omega | exact ⟨_, _, _, _, _, _, _, _, rfl⟩
  obtain ⟨v1, hv1⟩ := Option.isSome_iff_exists.mp (hhex b1 (by simp))
  obtain ⟨v2, hv2⟩ := Option.isSome_iff_exists.mp (hhex b2 (by simp))
  obtain ⟨v3, hv3⟩ := Option.isSome_iff_exists.mp (hhex b3 (by simp))
  obtain ⟨v4, hv4⟩ := Option.isSome_iff_exists.mp (hhex b4 (by simp))
  obtain ⟨v5, hv5⟩ := Option.isSome_iff_exists.mp (hhex b5 (by simp))
  obtain ⟨v6, hv6⟩ := Option.isSome_iff_exists.mp (hhex b6 (by simp))
  obtain ⟨v7, hv7⟩ := Option.isSome_iff_exists.mp (hhex b7 (by simp))
  obtain ⟨v8, hv8⟩ := Option.isSome_iff_exists.mp (hhex b8 (by simp))
  have w1 : v1 ≤ 15 := (hexVal_facts hv1).1
  have w2 : v2 ≤ 15 := (hexVal_facts hv2).1
  have w3 : v3 ≤ 15 := (hexVal_facts hv3).1
  have w4 : v4 ≤ 15 := (hexVal_facts hv4).1
  have w5 : v5 ≤ 15 := (hexVal_facts hv5).1
  have w6 : v6 ≤ 15 := (hexVal_facts hv6).1
  have w7 : v7 ≤ 15 := (hexVal_facts hv7).1
  have w8 : v8 ≤ 15 := (hexVal_facts hv8).1
  have t1 : toHexDigitByte v1 = toLowerByte b1 := (hexVal_facts hv1).2.1
  have t2 : toHexDigitByte v2 = toLowerByte b2 := (hexVal_facts hv2).2.1
  have t3 : toHexDigitByte v3 = toLowerByte b3 := (hexVal_facts hv3).2.1
  have t4 : toHexDigitByte v4 = toLowerByte b4 := (hexVal_facts hv4).2.1
  have t5 : toHexDigitByte v5 = toLowerByte b5 := (hexVal_facts hv5).2.1
  have t6 : toHexDigitByte v6 = toLowerByte b6 := (hexVal_facts hv6).2.1
  have t7 : toHexDigitByte v7 = toLowerByte b7 := (hexVal_facts hv7).2.1
  have t8 : toHexDigitByte v8 = toLowerByte b8 := (hexVal_facts hv8).2.1
  have hfh : from_hex (35 :: [b1, b2, b3, b4, b5, b6, b7, b8]) =
      Color.srgba_u8 (16 * v1 + v2) (16 * v3 + v4) (16 * v5 + v6) (16 * v7 + v8) := by
    unfold from_hex parse_hex_color
    rw [hexContent_hash_hex hhex, parse_hash_8 hv1 hv2 hv3 hv4 hv5 hv6 hv7 hv8]
  have hdrop : ([b1, b2, b3, b4, b5, b6, b7, b8].drop 6).map toLowerByte =
      [toLowerByte b7, toLowerByte b8] := rfl
  constructor
  · intro hff
    rw [hdrop] at hff
    simp only [List.cons.injEq, and_true] at hff
    have ha : 16 * v7 + v8 = 255 := by
      have e7 := (hexVal_lower_f hv7).mp hff.1
      have e8 := (hexVal_lower_f hv8).mp hff.2
      omega
    rw [hfh, get_hex_srgba_u8 (by omega) (by omega) (by omega) (by omega), if_pos ha,
      hex2_digits w2, hex2_digits w4, hex2_digits w6]
    simp [t1, t2, t3, t4, t5, t6]
  · intro hff
    rw [hdrop] at hff
    have ha : ¬ 16 * v7 + v8 = 255 := by
      intro heq
      have hv7e : v7 = 15 := by omega
      have hv8e : v8 = 15 := by omega
      exact hff (by
        rw [(hexVal_lower_f hv7).mpr hv7e, (hexVal_lower_f hv8).mpr hv8e])
    rw [hfh, get_hex_srgba_u8 (by omega) (by omega) (by omega) (by omega), if_neg ha,
      hex2_digits w2, hex2_digits w4, hex2_digits w6, hex2_digits w8]
    simp [t1, t2, t3, t4, t5, t6, t7, t8]

/-- Witness for C3 at a concrete input. -/
theorem hex8_roundtrip_witness :
    get_hex (from_hex (35 :: s2b "a1b2c380")) = 35 :: (s2b "a1b2c380").map toLowerByte :=
  (hex8_roundtrip (s2b "a1b2c380") (by decide) (by decide)).2 (by decide)

/-- C4: each channel of a 3-digit hex string decodes to the digit value times 17,
and the absent alpha defaults to the opaque byte 255 for the 3- and 6-digit
forms; f0a decodes to channel bytes 255, 0, 170. -/
theorem hex3_expansion :
    (∀ b1 b2 b3 v1 v2 v3, hexVal b1 = some v1 → hexVal b2 = some v2 → hexVal b3 = some v3 →
        parse_hex_color [b1, b2, b3] = .ok (Color.srgba_u8 (17 * v1) (17 * v2) (17 * v3) 255)) ∧
    (∀ l : List ℕ, l.length = 3 ∨ l.length = 6 → (∀ x ∈ l, (hexVal x).isSome) →
        ∃ r g b, parse_hex_color l = .ok (Color.srgba_u8 r g b 255)) ∧
    parse_hex_color (s2b "f0a") = .ok (Color.srgba_u8 255 0 170 255) := by
  refine ⟨?_, ?_, rfl⟩
  · intro b1 b2 b3 v1 v2 v3 h1 h2 h3
    unfold parse_hex_color
    rw [parse_hash_3 h1 h2 h3]
  · intro l hlen hhex
    rcases hlen with hl3 | hl6
    · obtain ⟨b1, b2, b3, rfl⟩ : ∃ b1 b2 b3, l = [b1, b2, b3] := by
        rcases l with _ | ⟨c1, _ | ⟨c2, _ | ⟨c3, _ | ⟨c4, t⟩⟩⟩⟩ <;>
          simp only [List.length_cons, List.length_nil] at hl3 <;>
          first | omega | exact ⟨_, _, _, rfl⟩
      obtain ⟨v1, hv1⟩ := Option.isSome_iff_exists.mp (hhex b1 (by simp))
      obtain ⟨v2, hv2⟩ := Option.isSome_iff_exists.mp (hhex b2 (by simp))
      obtain ⟨v3, hv3⟩ := Option.isSome_iff_exists.mp (hhex b3 (by simp))
      refine ⟨17 * v1, 17 * v2, 17 * v3, ?_⟩
      unfold parse_hex_color
      rw [parse_hash_3 hv1 hv2 hv3]
    · obtain ⟨b1, b2, b3, b4, b5, b6, rfl⟩ :
          ∃ b1 b2 b3 b4 b5 b6, l = [b1, b2, b3, b4, b5, b6] := by
        rcases l with _ | ⟨c1, _ | ⟨c2, _ | ⟨c3, _ | ⟨c4, _ | ⟨c5, _ | ⟨c6, _ | ⟨c7, t⟩⟩⟩⟩⟩⟩⟩ <;>
          simp only [List.length_cons, List.length_nil] at hl6 <;>
          first | omega | exact ⟨_, _, _, _, _, _, rfl⟩
      obtain ⟨v1, hv1⟩ := Option.isSome_iff_exists.mp (hhex b1 (by simp))
      obtain ⟨v2, hv2⟩ := Option.isSome_iff_exists.mp (hhex b2 (by simp))
      obtain ⟨v3, hv3⟩ := Option.isSome_iff_exists.mp (hhex b3 (by simp))
      obtain ⟨v4, hv4⟩ := Option.isSome_iff_exists.mp (hhex b4 (by simp))
      obtain ⟨v5, hv5⟩ := Option.isSome_iff_exists.mp (hhex b5 (by simp))
      obtain ⟨v6, hv6⟩ := Option.isSome_iff_exists.mp (hhex b6 (by simp))
      refine ⟨16 * v1 + v2, 16 * v3 + v4, 16 * v5 + v6, ?_⟩
      unfold parse_hex_color
      rw [parse_hash_6 hv1 hv2 hv3 hv4 hv5 hv6]

/-- Witness for C4 at a concrete input. -/
theorem hex3_expansion_witness :
    parse_hex_color [102, 48, 97] = .ok (Color.srgba_u8 (17 * 15) (17 * 0) (17 * 10) 255) :=
  hex3_expansion.1 102 48 97 15 0 10 (by decide) (by decide) (by decide)

/-- C5: when the trimmed, hash-stripped content has a length other than 3, 4, 6 or
8, or contains a non-hex byte, the strict parse returns the invalid-literal error
carrying the text and the permissive parse returns opaque white; zzz and
notacolor are such inputs. -/
theorem invalid_hex_strict_permissive :
    (∀ l : List ℕ,
        ((¬(hexContent l).length = 3 ∧ ¬(hexContent l).length = 4 ∧
            ¬(hexContent l).length = 6 ∧ ¬(hexContent l).length = 8) ∨
          ∃ x ∈ hexContent l, hexVal x = none) →
        try_from_hex l = .error (hexContent l) ∧ from_hex l = Color.WHITE) ∧
    try_from_hex (s2b "zzz") = .error (s2b "zzz") ∧
    try_from_hex (s2b "notacolor") = .error (s2b "notacolor") ∧
    from_hex (s2b "zzz") = Color.WHITE ∧
    from_hex (s2b "notacolor") = Color.WHITE := by
  refine ⟨?_, rfl, rfl, rfl, rfl⟩
  intro l hbad
  rcases from_hex_eq l with ⟨r, g, b, a, hph, hfh, htf⟩ | ⟨hph, hfh, htf⟩
  · exfalso
    have hs := parse_hash_some hph
    rcases hbad with hlen | ⟨x, hx, hxn⟩
    · rcases hs.1 with h | h | h | h <;> omega
    · have hy := hs.2.1 x hx
      rw [hxn] at hy
      simp at hy
  · exact ⟨htf, hfh⟩

/-- Witness for C5 at a concrete input. -/
theorem invalid_hex_witness :
    try_from_hex (s2b "#12") = .error (hexContent (s2b "#12")) ∧
    from_hex (s2b "#12") = Color.WHITE :=
  invalid_hex_strict_permissive.1 (s2b "#12") (Or.inl (by decide))

/-- C6: get_hex emits the hash byte followed by lowercase hex digit bytes, in the
6-digit form exactly when the quantized alpha byte equals 255 and in the 8-digit
form otherwise, each byte being the channel times 256, floored and clamped into
0..255. -/
theorem get_hex_canonical :
    (∀ q : ℚ, (floatToU8 q : ℤ) = max 0 (min 255 ⌊q * 256⌋)) ∧
    (∀ c : Color,
        get_hex c =
          if floatToU8 c.alpha = 255 then
            35 :: (hex2 (floatToU8 c.red) ++ hex2 (floatToU8 c.green) ++
              hex2 (floatToU8 c.blue))
          else
            35 :: (hex2 (floatToU8 c.red) ++ hex2 (floatToU8 c.green) ++
              hex2 (floatToU8 c.blue) ++ hex2 (floatToU8 c.alpha))) ∧
    (∀ c : Color, (get_hex c).tail.all isLowerHexDigit = true) := by
  have h2 : ∀ c : Color,
      get_hex c =
        if floatToU8 c.alpha = 255 then
          35 :: (hex2 (floatToU8 c.red) ++ hex2 (floatToU8 c.green) ++
            hex2 (floatToU8 c.blue))
        else
          35 :: (hex2 (floatToU8 c.red) ++ hex2 (floatToU8 c.green) ++
            hex2 (floatToU8 c.blue) ++ hex2 (floatToU8 c.alpha)) := fun c => rfl
  refine ⟨?_, h2, ?_⟩
  · intro q
    unfold floatToU8
    omega
  · intro c
    rw [h2 c]
    split_ifs
    · simp only [List.tail_cons, List.all_append]
      rw [hex2_all_lower (floatToU8_le _), hex2_all_lower (floatToU8_le _),
        hex2_all_lower (floatToU8_le _)]
      rfl
    · simp only [List.tail_cons, List.all_append]
      rw [hex2_all_lower (floatToU8_le _), hex2_all_lower (floatToU8_le _),
        hex2_all_lower (floatToU8_le _), hex2_all_lower (floatToU8_le _)]
      rfl

set_option maxRecDepth 400000 in
set_option maxHeartbeats 1000000 in
/-- C7: named lookup returns none, not an error, for every name matching no stored
key; matching is case-sensitive to the stored lowercase keys, so RED misses while
red hits. -/
theorem named_lookup_case_sensitive :
    (∀ name : List ℕ, (∀ e ∈ namedColorTable, e.key ≠ name) →
        parse_named_color name = none) ∧
    parse_named_color (s2b "RED") = none ∧
    (parse_named_color (s2b "red")).isSome = true := by
  refine ⟨?_, rfl, rfl⟩
  intro name h
  have hf : namedColorTable.find? (fun e => decide (e.key = name)) = none :=
    List.find?_eq_none.mpr (fun x hx => by simpa using h x hx)
  unfold parse_named_color lookupEntry
  rw [hf]
  rfl

set_option maxRecDepth 400000 in
/-- Witness for C7 at a concrete input. -/
theorem named_lookup_case_sensitive_witness :
    parse_named_color (s2b "RED") = none :=
  named_lookup_case_sensitive.1 (s2b "RED") (by decide)

set_option maxRecDepth 400000 in
set_option maxHeartbeats 4000000 in
/-- C8: every name of the CSS Level 1-4 named-color specification (148 names) is
found in the table with channels equal to the CSS byte divided by 255, rounded to
4 decimal places; transparent maps to all-zero channels with alpha exactly 0; the
gray and grey duplicate pairs agree. -/
theorem css_table_complete :
    (∀ c ∈ cssNamedColors,
        lookupEntry c.1 =
          some ⟨c.1, round4 c.2.1, round4 c.2.2.1, round4 c.2.2.2, 10000⟩) ∧
    (∀ name e, lookupEntry name = some e →
        parse_named_color name = some (Color.srgba (q4 e.r) (q4 e.g) (q4 e.b) (q4 e.a))) ∧
    parse_named_color (s2b "transparent") = some (Color.srgba 0 0 0 0) ∧
    parse_named_color (s2b "gray") = parse_named_color (s2b "grey") ∧
    parse_named_color (s2b "darkgray") = parse_named_color (s2b "darkgrey") ∧
    parse_named_color (s2b "darkslategray") = parse_named_color (s2b "darkslategrey") ∧
    parse_named_color (s2b "dimgray") = parse_named_color (s2b "dimgrey") ∧
    parse_named_color (s2b "lightgray") = parse_named_color (s2b "lightgrey") ∧
    parse_named_color (s2b "lightslategray") = parse_named_color (s2b "lightslategrey") ∧
    parse_named_color (s2b "slategray") = parse_named_color (s2b "slategrey") ∧
    cssNamedColors.length = 148 := by
  refine ⟨by decide, ?_, ?_, rfl, rfl, rfl, rfl, rfl, rfl, rfl, by decide⟩
  · intro name e h
    unfold parse_named_color
    rw [h]
    rfl
  · have ht : parse_named_color (s2b "transparent") =
        some (Color.srgba (q4 0) (q4 0) (q4 0) (q4 0)) := rfl
    have h0 : q4 0 = 0 := by
      unfold q4
      norm_num
    rw [ht, h0]

set_option maxRecDepth 400000 in
set_option maxHeartbeats 1000000 in
/-- Witness for C8 at a concrete input. -/
theorem css_table_complete_witness :
    lookupEntry (s2b "red") =
      some ⟨s2b "red", round4 255, round4 0, round4 0, 10000⟩ :=
  css_table_complete.1 (s2b "red", 255, 0, 0) (by decide)

/-- C9: both the permissive and the strict hex parse strip every leading hash byte,
not just one, so any positive number of leading hashes parses exactly like a
single one. -/
theorem hash_stripping :
    (∀ (n : ℕ) (l : List ℕ), 1 ≤ n →
        from_hex (List.replicate n 35 ++ l) = from_hex (35 :: l) ∧
        try_from_hex (List.replicate n 35 ++ l) = try_from_hex (35 :: l)) ∧
    from_hex (s2b "##ff0000") = from_hex (s2b "#ff0000") ∧
    try_from_hex (s2b "##ff0000") = try_from_hex (s2b "#ff0000") := by
  refine ⟨?_, rfl, rfl⟩
  intro n l hn
  constructor
  · unfold from_hex
    rw [hexContent_replicate l hn]
  · unfold try_from_hex
    rw [hexContent_replicate l hn]

/-- Witness for C9 at a concrete input. -/
theorem hash_stripping_witness :
    from_hex (List.replicate 3 35 ++ s2b "ff0000") = from_hex (35 :: s2b "ff0000") ∧
    try_from_hex (List.replicate 3 35 ++ s2b "ff0000") = try_from_hex (35 :: s2b "ff0000") :=
  hash_stripping.1 3 (s2b "ff0000") (by decide)

set_option maxRecDepth 400000 in
set_option maxHeartbeats 1000000 in
/-- C10: every color produced by the public operations (strict hex parse,
permissive hex parse with its white default, named lookup) has all four channels
between 0 and 1, and every named color except transparent has alpha exactly 1. -/
theorem produced_colors_in_range :
    (∀ l c, try_from_hex l = .ok c → inRange c) ∧
    (∀ l, inRange (from_hex l)) ∧
    (∀ name c, parse_named_color name = some c →
        inRange c ∧ (name ≠ s2b "transparent" → c.alpha = 1)) := by
  have hwhite : inRange Color.WHITE := by
    unfold inRange Color.WHITE
    norm_num
  refine ⟨?_, ?_, ?_⟩
  · intro l c h
    rcases from_hex_eq l with ⟨r, g, b, a, hph, hfh, htf⟩ | ⟨hph, hfh, htf⟩
    · rw [htf] at h
      injection h with h
      rw [← h]
      have hs := parse_hash_some hph
      exact srgba_u8_inRange hs.2.2.1 hs.2.2.2.1 hs.2.2.2.2.1 hs.2.2.2.2.2
    · rw [htf] at h
      exact absurd h (by simp)
  · intro l
    rcases from_hex_eq l with ⟨r, g, b, a, hph, hfh, htf⟩ | ⟨hph, hfh, htf⟩
    · rw [hfh]
      have hs := parse_hash_some hph
      exact srgba_u8_inRange hs.2.2.1 hs.2.2.2.1 hs.2.2.2.2.1 hs.2.2.2.2.2
    · rw [hfh]
      exact hwhite
  · intro name c h
    have htab : ∀ e ∈ namedColorTable,
        e.r ≤ 10000 ∧ e.g ≤ 10000 ∧ e.b ≤ 10000 ∧ e.a ≤ 10000 ∧
          (e.key ≠ s2b "transparent" → e.a = 10000) := by decide
    unfold parse_named_color at h
    cases hle : lookupEntry name with
    | none =>
      rw [hle] at h
      exact absurd h (by simp)
    | some e =>
      rw [hle] at h
      simp only [Option.map_some'] at h
      injection h with h
      unfold lookupEntry at hle
      have hmem := List.mem_of_find?_eq_some hle
      have hkey : e.key = name := by simpa using List.find?_some hle
      obtain ⟨h1, h2, h3, h4, h5⟩ := htab e hmem
      constructor
      · rw [← h]
        unfold inRange Color.srgba
        exact ⟨(q4_range h1).1, (q4_range h1).2, (q4_range h2).1, (q4_range h2).2,
          (q4_range h3).1, (q4_range h3).2, (q4_range h4).1, (q4_range h4).2⟩
      · intro hname
        have hne : e.key ≠ s2b "transparent" := by
          rw [hkey]
          exact hname
        have ha := h5 hne
        rw [← h]
        show q4 e.a = 1
        rw [ha]
        unfold q4
        norm_num

/-- Witness for C10 at a concrete input. -/
theorem produced_colors_in_range_witness :
    inRange (Color.srgba_u8 255 0 0 255) :=
  produced_colors_in_range.1 (s2b "#ff0000") (Color.srgba_u8 255 0 0 255) rfl

end Belly
